import Mathlib

/-!
Verification of the job/task orchestration engine of the agentic tool
generation service.

The repository's sources under `src/` contain the web frontend
(`frontend/src/*.ts(x)`, plus the unnamed page/component files), the REST API
design document (`design/tool-generation-api.md`) and a database migration
note.  The backend orchestration core (Job Manager, Task State Machine,
Progress Aggregator, Store Adapter) is not present under `src/`; where a
property depends on it, the corresponding definition is modelled from the
spec and its doc comment says so explicitly.  Everything embedded from real
source files names the file it comes from.
-/

namespace ToolGen

/-- Job status enumeration, embedded from `frontend/src/types.ts` line 48
(`type JobStatus = 'pending' | 'processing' | 'completed' | 'failed'`);
the same four-value enumeration appears in the migration note
(`src/unnamed/part_007`, "PENDING, PROCESSING, COMPLETED, FAILED"). -/
inductive JobStatus where
  | pending
  | processing
  | completed
  | failed
deriving DecidableEq, Repr

/-- The string value each `JobStatus` constructor stands for in
`frontend/src/types.ts`. -/
def jobStatusString : JobStatus → String
  | .pending => "pending"
  | .processing => "processing"
  | .completed => "completed"
  | .failed => "failed"

/-- The five job status values claimed by the design document
(`src/design/tool-generation-api.md` line 123). -/
def specJobStatusValues : List String :=
  ["pending", "running", "completed", "failed", "cancelled"]

/-- Task status enumeration, embedded from `frontend/src/types.ts` /
`src/unnamed/part_005` line 50. -/
inductive TaskStatus where
  | pending
  | planning
  | searching
  | implementing
  | executing
  | completed
  | failed
deriving DecidableEq, Repr

/-- A task status is terminal when it is `completed` or `failed`. -/
def TaskStatus.isTerminal : TaskStatus → Bool
  | .completed => true
  | .failed => true
  | _ => false

/-- The immediate successor on the fixed pipeline order
`pending → planning → searching → implementing → executing → completed`
(`src/design/tool-generation-api.md` line 12). -/
def pipelineSucc : TaskStatus → Option TaskStatus
  | .pending => some .planning
  | .planning => some .searching
  | .searching => some .implementing
  | .implementing => some .executing
  | .executing => some .completed
  | .completed => none
  | .failed => none

/-- Tool requirement, embedded from `frontend/src/types.ts`
(`UserToolRequirement`). -/
structure UserToolRequirement where
  description : String
  input : String
  output : String
deriving DecidableEq, Repr

/-- Error codes, embedded from the fixed enumeration in
`src/design/tool-generation-api.md` lines 176-189. -/
inductive ErrorCode where
  | invalidRequest
  | invalidToolRequirement
  | insufficientApiSpecs
  | generationTimeout
  | aiServiceError
  | aiServiceRateLimited
  | jobNotFound
  | jobCancelled
  | jobAlreadyCompleted
  | rateLimitExceeded
  | serviceUnavailable
  | internalError
deriving DecidableEq, Repr

/-- Job-level counters `{total, completed, failed, inProgress}` (§3 of the
spec; `JobProgress` in `frontend/src/types.ts`).  Fields are integers because
the Store Adapter manipulates them only through signed atomic increments. -/
structure Counts where
  total : Int
  completed : Int
  failed : Int
  inProgress : Int
deriving DecidableEq, Repr

/-- The sum of the three outcome buckets of a `Counts` value. -/
def sumCF (c : Counts) : Int :=
  c.completed + c.failed + c.inProgress

/-- Modelled from the spec: the Progress Aggregator's coarse classification
of a task state, §4.3 — "bucket ∈ {inProgress, completed, failed} (every
non-terminal task state maps to bucket `inProgress`)".  The aggregator itself
is part of the backend core, which is not under `src/`. -/
inductive Bucket where
  | inProgress
  | completed
  | failed
deriving DecidableEq, Repr

/-- Modelled from the spec: which bucket a task status counts in (§4.3). -/
def bucketOf (s : TaskStatus) : Bucket :=
  match s with
  | .completed => .completed
  | .failed => .failed
  | _ => .inProgress

/-- Add `d` to the named bucket of `c`; the primitive behind the Store
Adapter's `atomicAdjustCounts` (§4.5, modelled from the spec — the Store
Adapter is not under `src/`). -/
def Counts.addBucket (c : Counts) (b : Bucket) (d : Int) : Counts :=
  match b with
  | .inProgress => { c with inProgress := c.inProgress + d }
  | .completed => { c with completed := c.completed + d }
  | .failed => { c with failed := c.failed + d }

/-- Modelled from the spec: the Progress Aggregator's signed atomic increment
pair (§4.3) — decrement the previous bucket, increment the new bucket, as one
atomic operation.  The aggregator is part of the missing backend core. -/
def applyDelta (c : Counts) (t : Bucket × Bucket) : Counts :=
  (c.addBucket t.1 (-1)).addBucket t.2 1

/-- Modelled from the spec: counters of a freshly created job with `n` tasks.
§4.3 — "A task's very first transition (creation) increments `inProgress`
from an implicit zero baseline; this is folded into job creation", so a new
job with `n` tasks starts at `{total := n, inProgress := n}`. -/
def initCounts (n : Nat) : Counts :=
  { total := n, completed := 0, failed := 0, inProgress := n }

/-- A job as the orchestration core sees it: status plus derived counters. -/
structure Job where
  status : JobStatus
  counts : Counts
deriving DecidableEq, Repr

/-- Modelled from the spec: a requirement is valid when none of description,
input, output is empty (§4.1; the Job Manager is not under `src/`).  The
frontend applies the same non-empty check before submitting
(`frontend/src/components/ManualJobDialog.tsx` lines 49-58). -/
def validRequirement (r : UserToolRequirement) : Bool :=
  !(r.description == "") && !(r.input == "") && !(r.output == "")

/-- Modelled from the spec: the Job Manager's `createJob` (§4.1), which is
not under `src/`.  Fails with `InvalidRequest` if `requirements` is empty or
any requirement has an empty description/input/output; otherwise allocates a
job with `status = pending` and one pending task per requirement, returning
the job and the updated store. -/
def createJob (reqs : List UserToolRequirement) (store : List Job) :
    Except ErrorCode Job × List Job :=
  if reqs.isEmpty || reqs.any (fun r => !validRequirement r) then
    (.error .invalidRequest, store)
  else
    let j : Job := { status := .pending, counts := initCounts reqs.length }
    (.ok j, j :: store)

/-- Modelled from the spec: the Job Manager's terminality decision (§4.1
resolved by §7/§8/§9; the Job Manager is not under `src/`).  After a task
transition, if the job is not already terminal and `inProgress == 0`, the job
becomes `failed` only when all tasks failed (§7: task failures "never mark
the job itself `failed` unless ALL tasks fail"; §8's verify test and §9's
design note fix partial success as overall success), else `completed`.
Re-applying the check to an already-terminal job leaves it unchanged. -/
def checkTerminality (j : Job) : Job :=
  if j.status = .completed ∨ j.status = .failed then j
  else if j.counts.inProgress = 0 then
    if j.counts.failed = j.counts.total then { j with status := .failed }
    else { j with status := .completed }
  else j

/-- Modelled from the spec: the effect of one observed task transition on the
owning job (§4.2 step (b) followed by §4.3's read-back into the terminality
check; backend core not under `src/`). -/
def applyTransition (j : Job) (t : Bucket × Bucket) : Job :=
  checkTerminality { j with counts := applyDelta j.counts t }

/-- Modelled from the spec: the tagged transition payload of §4.2/§9 — on
`completed` it must carry an artifact reference, on `failed` a
`{message, kind}` pair; intermediate transitions carry a plain progress
report.  The Task State Machine is not under `src/`. -/
inductive Payload where
  | progressReport
  | artifact (ref : String)
  | failure (message : String) (kind : String)
deriving DecidableEq, Repr

/-- Errors of the Task State Machine's `advance` (§4.2). -/
inductive AdvanceError where
  | invalidTransition
  | taskAlreadyTerminal
deriving DecidableEq, Repr

/-- Modelled from the spec: the Task State Machine's `advance` (§4.2), which
is not under `src/`.  Fails with `TaskAlreadyTerminal` from a terminal state;
accepts `failed` from any non-terminal state when the payload carries an
explicit failure; otherwise accepts only the immediate pipeline successor,
and `completed` additionally requires an artifact reference in the payload. -/
def advance (current target : TaskStatus) (payload : Payload) :
    Except AdvanceError TaskStatus :=
  if current.isTerminal then .error .taskAlreadyTerminal
  else if target = .failed then
    match payload with
    | .failure _ _ => .ok .failed
    | _ => .error .invalidTransition
  else if pipelineSucc current = some target then
    if target = .completed then
      match payload with
      | .artifact _ => .ok target
      | _ => .error .invalidTransition
    else .ok target
  else .error .invalidTransition

/-- Modelled from the spec: processing one transition callback for a task and
its job's counters (§4.2 steps (a)-(b); backend core not under `src/`).  A
failed `advance` leaves task state and counts unchanged and reports the
error; a successful one persists the new state and applies the signed
increment pair for the bucket delta. -/
def processCallback (st : TaskStatus × Counts) (target : TaskStatus)
    (p : Payload) : (TaskStatus × Counts) × Option AdvanceError :=
  match advance st.1 target p with
  | .error e => (st, some e)
  | .ok t => ((t, applyDelta st.2 (bucketOf st.1, bucketOf t)), none)

/-- Job generation summary, embedded from `frontend/src/types.ts` lines 42-46
(`GenerationSummary`). -/
structure GenerationSummary where
  totalRequested : Int
  successful : Int
  failed : Int
deriving DecidableEq, Repr

/-- Modelled from the spec: the summary a terminal job reports mirrors its
counters (§8's scenario, "mirroring the summary/failures fields in the API";
the backend that builds `JobResponse.summary` is not under `src/`). -/
def mkSummary (c : Counts) : GenerationSummary :=
  { totalRequested := c.total, successful := c.completed, failed := c.failed }

/-- Client-side job progress record, embedded from `frontend/src/types.ts`
lines 17-23 (`JobProgress`); fields are JS numbers, modelled as rationals. -/
structure JobProgress where
  total : ℚ
  completed : ℚ
  failed : ℚ
  inProgress : ℚ
deriving DecidableEq, Repr

/-- Embedded from `src/unnamed/part_007` lines 89-92 and
`frontend/src/pages/JobDetailsPage.tsx` lines 118-121
(`getProgressPercentage`), and the equivalent guarded ternary in
`frontend/src/components/JobDashboard.tsx` lines 118-120: return 0 when
`total` is 0, else `((completed + failed) / total) * 100`. -/
def getProgressPercentage (p : JobProgress) : ℚ :=
  if p.total = 0 then 0 else (p.completed + p.failed) / p.total * 100

/-- Embedded from `frontend/src/components/JobDashboard.tsx` line 66: the
polling-ending check `jobData.status === 'completed' || jobData.status ===
'failed'`. -/
def isTerminalJobStatus (s : JobStatus) : Bool :=
  s == .completed || s == .failed

/-- State of the `JobDashboard` component's polling effect
(`frontend/src/components/JobDashboard.tsx` lines 53-92): whether the
5-second interval is still installed, how many `getJob` requests have been
issued, and the last job status received. -/
structure DashboardState where
  polling : Bool
  requests : Nat
  lastStatus : Option JobStatus
deriving DecidableEq, Repr

/-- One firing of the poll interval, embedded from `fetchJob` in
`frontend/src/components/JobDashboard.tsx` lines 57-79: if the interval is
still installed, a `getJob` request is issued and the interval is cleared
exactly when the returned status is `completed` or `failed`; a cleared
interval never fires again. -/
def fetchTick (st : DashboardState) (resp : JobStatus) : DashboardState :=
  if st.polling then
    { polling := !isTerminalJobStatus resp
      requests := st.requests + 1
      lastStatus := some resp }
  else st

/-- A sequence of interval firings with the statuses the server returns. -/
def runTicks (st : DashboardState) (resps : List JobStatus) : DashboardState :=
  resps.foldl fetchTick st

/-- The component's state when it mounts: interval installed, no request
issued yet. -/
def dashboardInit : DashboardState :=
  { polling := true, requests := 0, lastStatus := none }

/-! ### Helper lemmas about the counters -/

theorem addBucket_sumCF (c : Counts) (b : Bucket) (d : Int) :
    sumCF (c.addBucket b d) = sumCF c + d := by
  cases b <;> simp [Counts.addBucket, sumCF] <;> ring

theorem addBucket_total (c : Counts) (b : Bucket) (d : Int) :
    (c.addBucket b d).total = c.total := by
  cases b <;> simp [Counts.addBucket]

theorem applyDelta_sumCF (c : Counts) (t : Bucket × Bucket) :
    sumCF (applyDelta c t) = sumCF c := by
  simp [applyDelta, addBucket_sumCF]

theorem applyDelta_total (c : Counts) (t : Bucket × Bucket) :
    (applyDelta c t).total = c.total := by
  simp [applyDelta, addBucket_total]

theorem foldl_applyDelta_sumCF (ts : List (Bucket × Bucket)) :
    ∀ c : Counts, sumCF (ts.foldl applyDelta c) = sumCF c := by
  induction ts with
  | nil => intro c; rfl
  | cons t ts ih =>
    intro c
    simpa [List.foldl, applyDelta_sumCF] using ih (applyDelta c t)

theorem foldl_applyDelta_total (ts : List (Bucket × Bucket)) :
    ∀ c : Counts, (ts.foldl applyDelta c).total = c.total := by
  induction ts with
  | nil => intro c; rfl
  | cons t ts ih =>
    intro c
    simpa [List.foldl, applyDelta_total] using ih (applyDelta c t)

theorem checkTerminality_counts (j : Job) :
    (checkTerminality j).counts = j.counts := by
  unfold checkTerminality
  split_ifs <;> rfl

theorem applyTransition_counts (j : Job) (t : Bucket × Bucket) :
    (applyTransition j t).counts = applyDelta j.counts t := by
  simp [applyTransition, checkTerminality_counts]

theorem foldl_applyTransition_counts (ts : List (Bucket × Bucket)) :
    ∀ j : Job, (ts.foldl applyTransition j).counts = ts.foldl applyDelta j.counts := by
  induction ts with
  | nil => intro j; rfl
  | cons t ts ih =>
    intro j
    simpa [List.foldl, applyTransition_counts] using ih (applyTransition j t)

theorem createJob_ok_counts (reqs : List UserToolRequirement)
    (store : List Job) (j : Job) (h : (createJob reqs store).1 = .ok j) :
    j.counts = initCounts reqs.length := by
  unfold createJob at h
  split at h
  · simp at h
  · simp only at h
    cases h
    rfl

/-! ### C1 -/

/-- C1: for every job accepted by `createJob`, after creation and after every
sequence of observed task transitions the counters satisfy
`counts.completed + counts.failed + counts.inProgress = counts.total`. -/
theorem job_counts_sum_invariant (reqs : List UserToolRequirement)
    (store : List Job) (j : Job) (h : (createJob reqs store).1 = .ok j)
    (ts : List (Bucket × Bucket)) :
    (ts.foldl applyTransition j).counts.completed
      + (ts.foldl applyTransition j).counts.failed
      + (ts.foldl applyTransition j).counts.inProgress
      = (ts.foldl applyTransition j).counts.total := by
  have hc := createJob_ok_counts reqs store j h
  have hs : sumCF (ts.foldl applyTransition j).counts = sumCF j.counts := by
    rw [foldl_applyTransition_counts]
    exact foldl_applyDelta_sumCF ts j.counts
  have ht : (ts.foldl applyTransition j).counts.total = j.counts.total := by
    rw [foldl_applyTransition_counts]
    exact foldl_applyDelta_total ts j.counts
  have : sumCF (ts.foldl applyTransition j).counts
      = (ts.foldl applyTransition j).counts.total := by
    rw [hs, ht, hc]
    simp [sumCF, initCounts]
  simpa [sumCF] using this

/-- A concrete single-requirement job used as a witness input. -/
def reqA : UserToolRequirement :=
  { description := "calculate molecular weight"
    input := "SMILES string"
    output := "molecular weight" }

/-- The job `createJob [reqA] []` allocates. -/
def jobA : Job :=
  { status := .pending, counts := initCounts 1 }

theorem job_counts_sum_invariant_witness :
    (([((Bucket.inProgress : Bucket), (Bucket.completed : Bucket))]).foldl
        applyTransition jobA).counts.completed
      + (([((Bucket.inProgress : Bucket), (Bucket.completed : Bucket))]).foldl
        applyTransition jobA).counts.failed
      + (([((Bucket.inProgress : Bucket), (Bucket.completed : Bucket))]).foldl
        applyTransition jobA).counts.inProgress
      = (([((Bucket.inProgress : Bucket), (Bucket.completed : Bucket))]).foldl
        applyTransition jobA).counts.total :=
  job_counts_sum_invariant [reqA] [] jobA rfl
    [(Bucket.inProgress, Bucket.completed)]

/-! ### C8 -/

/-- C8 counterexample: the status value `processing`, which the code's
`JobStatus` enumeration (`frontend/src/types.ts` line 48) admits, is not one
of the five values `pending, running, completed, failed, cancelled` claimed
from the design document. -/
theorem jobStatus_processing_outside_claimed_values :
    jobStatusString JobStatus.processing ∉ specJobStatusValues := by
  decide

/-- C8 (amended): every job status value is one of the four values
`pending, processing, completed, failed` of `frontend/src/types.ts`. -/
theorem jobStatus_value_range (s : JobStatus) :
    jobStatusString s ∈ ["pending", "processing", "completed", "failed"] := by
  cases s <;> simp [jobStatusString]

/-! ### C9 -/

/-- C9: the client progress-percentage computation returns 0 when
`progress.total = 0` and `((completed + failed) / total) * 100` otherwise;
the division only happens under the guard `total ≠ 0`. -/
theorem getProgressPercentage_spec (p : JobProgress) :
    (p.total = 0 → getProgressPercentage p = 0)
    ∧ (p.total ≠ 0 →
        getProgressPercentage p = (p.completed + p.failed) / p.total * 100) := by
  constructor <;> intro h <;> simp [getProgressPercentage, h]

theorem getProgressPercentage_spec_witness :
    getProgressPercentage { total := 0, completed := 0, failed := 0, inProgress := 0 } = 0
    ∧ getProgressPercentage { total := 4, completed := 1, failed := 1, inProgress := 2 }
      = (1 + 1) / 4 * 100 :=
  ⟨(getProgressPercentage_spec
      { total := 0, completed := 0, failed := 0, inProgress := 0 }).1 rfl,
   (getProgressPercentage_spec
      { total := 4, completed := 1, failed := 1, inProgress := 2 }).2 (by norm_num)⟩

/-! ### C10 -/

theorem runTicks_of_not_polling (st : DashboardState) (h : st.polling = false) :
    ∀ l : List JobStatus, runTicks st l = st := by
  intro l
  induction l with
  | nil => rfl
  | cons r l ih =>
    show runTicks (fetchTick st r) l = st
    rw [show fetchTick st r = st by simp [fetchTick, h]]
    exact ih

/-- C10: once a poll returns a job whose status is `completed` or `failed`,
the `JobDashboard` component clears its poll interval (`polling` becomes
false) and no later interval firing issues another `getJob` request: the
state stays frozen and the request count stays at its value right after the
terminal response. -/
theorem dashboard_stops_polling_after_terminal (st : DashboardState)
    (resp : JobStatus) (rest : List JobStatus)
    (hpoll : st.polling = true) (hterm : isTerminalJobStatus resp = true) :
    (fetchTick st resp).polling = false
    ∧ runTicks (fetchTick st resp) rest = fetchTick st resp
    ∧ (runTicks (fetchTick st resp) rest).requests = st.requests + 1 := by
  have h1 : (fetchTick st resp).polling = false := by
    simp [fetchTick, hpoll, hterm]
  refine ⟨h1, runTicks_of_not_polling _ h1 rest, ?_⟩
  rw [runTicks_of_not_polling _ h1 rest]
  simp [fetchTick, hpoll]

theorem dashboard_stops_polling_after_terminal_witness :
    (fetchTick dashboardInit JobStatus.completed).polling = false
    ∧ runTicks (fetchTick dashboardInit JobStatus.completed)
        [JobStatus.completed, JobStatus.pending]
      = fetchTick dashboardInit JobStatus.completed
    ∧ (runTicks (fetchTick dashboardInit JobStatus.completed)
        [JobStatus.completed, JobStatus.pending]).requests
      = dashboardInit.requests + 1 :=
  dashboard_stops_polling_after_terminal dashboardInit JobStatus.completed
    [JobStatus.completed, JobStatus.pending] rfl rfl

/-! ### C2 -/

/-- A job whose tasks all finished, two completed and one failed. -/
def jobPartial : Job :=
  { status := .processing
    counts := { total := 3, completed := 2, failed := 1, inProgress := 0 } }

/-- A job whose two tasks both failed. -/
def jobAllFailed : Job :=
  { status := .processing
    counts := { total := 2, completed := 0, failed := 2, inProgress := 0 } }

theorem checkTerminality_of_terminal (j : Job)
    (h : j.status = .completed ∨ j.status = .failed) :
    checkTerminality j = j := by
  unfold checkTerminality
  rw [if_pos h]

theorem checkTerminality_idem (j : Job) :
    checkTerminality (checkTerminality j) = checkTerminality j := by
  by_cases hterm : j.status = .completed ∨ j.status = .failed
  · rw [checkTerminality_of_terminal j hterm]
    exact checkTerminality_of_terminal j hterm
  · by_cases h0 : j.counts.inProgress = 0
    · have hstep : checkTerminality j
          = if j.counts.failed = j.counts.total
            then { j with status := JobStatus.failed }
            else { j with status := JobStatus.completed } := by
        unfold checkTerminality
        rw [if_neg hterm, if_pos h0]
      rw [hstep]
      split_ifs with hf
      · exact checkTerminality_of_terminal _ (Or.inr rfl)
      · exact checkTerminality_of_terminal _ (Or.inl rfl)
    · have hfix : checkTerminality j = j := by
        unfold checkTerminality
        rw [if_neg hterm, if_neg h0]
      rw [hfix]
      exact hfix

/-- C2 counterexample: for the job with counts
`{total := 3, completed := 2, failed := 1, inProgress := 0}` the terminality
check yields status `completed` although `counts.failed ≠ 0`, refuting the
claim that the status is set to `failed` whenever `counts.failed ≠ 0`
(partial failure is reported as overall job success, per §7/§8/§9 of the
spec). -/
theorem terminality_claim_counterexample :
    jobPartial.counts.inProgress = 0
    ∧ jobPartial.counts.failed ≠ 0
    ∧ (checkTerminality jobPartial).status = JobStatus.completed := by
  decide

/-- C2 (amended): when a task transition leaves a non-terminal job with
`counts.inProgress = 0`, the terminality check sets the status to `failed`
exactly when all tasks failed (`counts.failed = counts.total`) and to
`completed` otherwise; re-applying the check to the now-terminal job is a
no-op. -/
theorem checkTerminality_spec (j : Job)
    (h1 : j.status ≠ .completed) (h2 : j.status ≠ .failed)
    (h0 : j.counts.inProgress = 0) :
    (checkTerminality j).status
      = (if j.counts.failed = j.counts.total then JobStatus.failed
         else JobStatus.completed)
    ∧ checkTerminality (checkTerminality j) = checkTerminality j := by
  constructor
  · unfold checkTerminality
    rw [if_neg (by simp [h1, h2]), if_pos h0]
    split_ifs <;> rfl
  · exact checkTerminality_idem j

theorem checkTerminality_spec_witness :
    (checkTerminality jobAllFailed).status
      = (if jobAllFailed.counts.failed = jobAllFailed.counts.total
         then JobStatus.failed else JobStatus.completed)
    ∧ checkTerminality (checkTerminality jobAllFailed)
      = checkTerminality jobAllFailed :=
  checkTerminality_spec jobAllFailed (by decide) (by decide) (by decide)

/-! ### C3 -/

/-- The three requirements of the partial-failure scenario in §8. -/
def scenarioReqs : List UserToolRequirement :=
  [ { description := "tool one", input := "input one", output := "output one" },
    { description := "tool two", input := "input two", output := "output two" },
    { description := "tool three", input := "input three", output := "output three" } ]

/-- The job `createJob scenarioReqs []` allocates. -/
def scenarioJob : Job :=
  { status := .pending, counts := initCounts 3 }

/-- Two tasks complete, one fails. -/
def scenarioTransitions : List (Bucket × Bucket) :=
  [(.inProgress, .completed), (.inProgress, .completed), (.inProgress, .failed)]

/-- C3: a job created with 3 requirements of which 2 tasks complete and 1
fails ends with status `completed` and counts
`{total := 3, completed := 2, failed := 1, inProgress := 0}`, and the API
summary mirrors those counts as
`{totalRequested := 3, successful := 2, failed := 1}`. -/
theorem scenario_two_completed_one_failed :
    (createJob scenarioReqs []).1 = .ok scenarioJob
    ∧ (scenarioTransitions.foldl applyTransition scenarioJob).status
      = JobStatus.completed
    ∧ (scenarioTransitions.foldl applyTransition scenarioJob).counts
      = { total := 3, completed := 2, failed := 1, inProgress := 0 }
    ∧ mkSummary (scenarioTransitions.foldl applyTransition scenarioJob).counts
      = { totalRequested := 3, successful := 2, failed := 1 } :=
  ⟨rfl, by decide, by decide, by decide⟩

/-! ### C4 -/

/-- C4: every transition `advance` accepts either moves the task one step
forward along the fixed pipeline order (`pipelineSucc`) or jumps to one of
the two terminal states, and `advance` accepts nothing from a terminal state
(terminal states are absorbing). -/
theorem advance_forward_or_terminal (cur tgt : TaskStatus) (p : Payload) :
    (∀ t : TaskStatus, advance cur tgt p = .ok t →
      pipelineSucc cur = some t ∨ t = .completed ∨ t = .failed)
    ∧ (cur.isTerminal = true →
      advance cur tgt p = .error .taskAlreadyTerminal) := by
  constructor
  · intro t h
    cases p <;> cases cur <;> cases tgt <;>
      simp_all [advance, pipelineSucc, TaskStatus.isTerminal]
  · intro hterm
    unfold advance
    rw [if_pos hterm]

theorem advance_forward_or_terminal_witness :
    (pipelineSucc TaskStatus.pending = some TaskStatus.planning
      ∨ TaskStatus.planning = TaskStatus.completed
      ∨ TaskStatus.planning = TaskStatus.failed)
    ∧ advance TaskStatus.completed TaskStatus.completed Payload.progressReport
      = Except.error AdvanceError.taskAlreadyTerminal :=
  ⟨(advance_forward_or_terminal TaskStatus.pending TaskStatus.planning
      Payload.progressReport).1 TaskStatus.planning rfl,
   (advance_forward_or_terminal TaskStatus.completed TaskStatus.completed
      Payload.progressReport).2 rfl⟩

/-! ### C5 -/

/-- C5: a transition callback for a task already in a terminal state is a
no-op — `advance` reports `TaskAlreadyTerminal`, the task's state is
unchanged and the job's counters are not adjusted a second time. -/
theorem terminal_callback_noop (s : TaskStatus) (c : Counts)
    (tgt : TaskStatus) (p : Payload) (h : s.isTerminal = true) :
    processCallback (s, c) tgt p
      = ((s, c), some AdvanceError.taskAlreadyTerminal) := by
  simp [processCallback, advance, h]

theorem terminal_callback_noop_witness :
    processCallback (TaskStatus.completed,
        ({ total := 1, completed := 1, failed := 0, inProgress := 0 } : Counts))
        TaskStatus.failed (Payload.failure "late report" "duplicate")
      = ((TaskStatus.completed,
          ({ total := 1, completed := 1, failed := 0, inProgress := 0 } : Counts)),
         some AdvanceError.taskAlreadyTerminal) :=
  terminal_callback_noop TaskStatus.completed
    { total := 1, completed := 1, failed := 0, inProgress := 0 }
    TaskStatus.failed (Payload.failure "late report" "duplicate") rfl

/-! ### C6 -/

theorem applyDelta_right_comm (c : Counts) (t u : Bucket × Bucket) :
    applyDelta (applyDelta c t) u = applyDelta (applyDelta c u) t := by
  rcases t with ⟨t1, t2⟩
  rcases u with ⟨u1, u2⟩
  cases t1 <;> cases t2 <;> cases u1 <;> cases u2 <;>
    simp [applyDelta, Counts.addBucket, Counts.mk.injEq]

theorem foldl_applyDelta_perm {l₁ l₂ : List (Bucket × Bucket)}
    (h : l₁.Perm l₂) :
    ∀ c : Counts, l₁.foldl applyDelta c = l₂.foldl applyDelta c := by
  induction h with
  | nil => intro c; rfl
  | cons x _ ih => intro c; exact ih (applyDelta c x)
  | swap x y l =>
    intro c
    show l.foldl applyDelta (applyDelta (applyDelta c y) x)
      = l.foldl applyDelta (applyDelta (applyDelta c x) y)
    rw [applyDelta_right_comm]
  | trans _ _ ih₁ ih₂ => intro c; rw [ih₁ c, ih₂ c]

/-- C6: the signed atomic increment pairs commute — applying the transitions
of one job in any interleaving order yields the same final counters
(permutation invariance, hence no lost update), and after any prefix of the
interleaving (any transient state) the bucket sum and the total are exactly
what they were initially, so counts never transiently stop summing to
total. -/
theorem concurrent_increments_commute (c : Counts)
    (l₁ l₂ : List (Bucket × Bucket)) (k : Nat) (h : l₁.Perm l₂) :
    l₁.foldl applyDelta c = l₂.foldl applyDelta c
    ∧ sumCF ((l₁.take k).foldl applyDelta c) = sumCF c
    ∧ ((l₁.take k).foldl applyDelta c).total = c.total :=
  ⟨foldl_applyDelta_perm h c, foldl_applyDelta_sumCF _ c,
   foldl_applyDelta_total _ c⟩

theorem concurrent_increments_commute_witness :
    ([((Bucket.inProgress : Bucket), (Bucket.completed : Bucket)),
      (Bucket.inProgress, Bucket.failed)]).foldl applyDelta (initCounts 2)
      = ([((Bucket.inProgress : Bucket), (Bucket.failed : Bucket)),
        (Bucket.inProgress, Bucket.completed)]).foldl applyDelta (initCounts 2)
    ∧ sumCF ((([((Bucket.inProgress : Bucket), (Bucket.completed : Bucket)),
        (Bucket.inProgress, Bucket.failed)]).take 1).foldl applyDelta
        (initCounts 2)) = sumCF (initCounts 2)
    ∧ ((([((Bucket.inProgress : Bucket), (Bucket.completed : Bucket)),
        (Bucket.inProgress, Bucket.failed)]).take 1).foldl applyDelta
        (initCounts 2)).total = (initCounts 2).total :=
  concurrent_increments_commute (initCounts 2)
    [(Bucket.inProgress, Bucket.completed), (Bucket.inProgress, Bucket.failed)]
    [(Bucket.inProgress, Bucket.failed), (Bucket.inProgress, Bucket.completed)]
    1
    (List.Perm.swap (Bucket.inProgress, Bucket.failed)
      (Bucket.inProgress, Bucket.completed) [])

/-! ### C7 -/

/-- C7: `createJob` fails with `INVALID_REQUEST` whenever the requirements
sequence is empty or some requirement has an empty description, input or
output, and in that case the store is returned unchanged — no job is
persisted. -/
theorem createJob_invalid_request (reqs : List UserToolRequirement)
    (store : List Job)
    (h : reqs = [] ∨ ∃ r ∈ reqs,
      r.description = "" ∨ r.input = "" ∨ r.output = "") :
    (createJob reqs store).1 = .error ErrorCode.invalidRequest
    ∧ (createJob reqs store).2 = store := by
  have hb : (reqs.isEmpty || reqs.any (fun r => !validRequirement r)) = true := by
    simp only [Bool.or_eq_true, List.any_eq_true, Bool.not_eq_true']
    rcases h with h | ⟨r, hr, hf⟩
    · subst h
      exact Or.inl rfl
    · refine Or.inr ⟨r, hr, ?_⟩
      rcases hf with h1 | h1 | h1 <;> simp [validRequirement, h1]
  constructor <;>
    · unfold createJob
      rw [if_pos hb]

theorem createJob_invalid_request_witness :
    (createJob [] [jobA]).1 = .error ErrorCode.invalidRequest
    ∧ (createJob [] [jobA]).2 = [jobA] :=
  createJob_invalid_request [] [jobA] (Or.inl rfl)

end ToolGen
